import Mathlib

/-!
Verification of the StableFlow settlement engine against its specification.

The development shallowly embeds the core of the source:
* the Ledger Store (`apps/wallet-service/src/wallet-service.service.ts`,
  `updateBalance`) as a pure conditional-mutation function over a wallet store;
* the Settlement Pipeline (`apps/transaction-worker/src/services/
  transaction-processor.service.ts`, `processTransaction` and its helpers) as a
  pure state-transition function over a worker state holding the ledger, the
  settlement-log store, the transaction-status store and the limit counters;
* the Intake Service limit logic (`apps/transaction-service/src/
  transaction-service.service.ts`, `checkTransactionLimits`,
  `updateTransactionLimitsUsage`, `bulkTransfer`).

Amounts are decimal strings in the source, parsed with `parseFloat` and
re-serialised with `toFixed(8)`; the embedding uses exact rational arithmetic
(`ℚ`), which agrees with the source on all 8-decimal inputs used here.
Timestamps are modelled as naturals (milliseconds); presentation-only string
fields (descriptions, metadata, addresses) carry no control flow in the claims
under study and are omitted.
-/

namespace StableFlow

/-- Wallet status enum from `wallet.entity.ts`. -/
inductive WalletStatus
  | ACTIVE
  | FROZEN
  | SUSPENDED
  | CLOSED
deriving DecidableEq

/-- Currency enum from `wallet-address.entity.ts`. -/
inductive Currency
  | USDT
  | USDC
  | BTC
  | ETH
deriving DecidableEq

/-- Balance-history change kinds from `balance-history.entity.ts`. -/
inductive ChangeType
  | DEPOSIT
  | WITHDRAWAL
  | TRANSFER_IN
  | TRANSFER_OUT
  | MINT
  | BURN
  | FREEZE
  | UNFREEZE
  | FEE
  | ADJUSTMENT
deriving DecidableEq

/-- The mutable per-wallet data of a `Wallet` row (balance, frozen balance,
status). The identity of the wallet is the `(user_id, currency)` key of the
store below. -/
structure WalletData where
  balance : ℚ
  frozen_balance : ℚ
  status : WalletStatus
deriving DecidableEq

/-- One appended `BalanceHistory` row: wallet key, prior balance, new balance,
amount, change kind and correlating transaction id. -/
structure BalanceHistoryEntry where
  user_id : Nat
  currency : Currency
  old_balance : ℚ
  new_balance : ℚ
  amount : ℚ
  change_type : ChangeType
  transaction_id : Option String
deriving DecidableEq

/-- The Ledger Store: wallets keyed by `(user_id, currency)` (unique per pair,
enforced by `createWallet`), plus the append-only balance history. -/
structure LedgerState where
  wallets : Nat × Currency → Option WalletData
  history : List BalanceHistoryEntry

/-- Error outcomes of the ledger mutation primitive (the thrown
`BadRequestException` / `NotFoundException` variants of `updateBalance`). -/
inductive UpdateBalanceError
  | invalidAmount
  | walletNotFound
  | walletFrozen
  | insufficientBalance
  | insufficientFrozenBalance
deriving DecidableEq

/-- The balance arm of the `switch (change_type)` in `updateBalance`
(wallet-service.service.ts lines 171-193): credit kinds add the amount, debit
kinds subtract it after the `oldBalance < amountNum` check, ADJUSTMENT sets the
balance directly to the amount. -/
def applyChange (w : WalletData) (amount : ℚ) (change_type : ChangeType) :
    Except UpdateBalanceError ℚ :=
  match change_type with
  | .DEPOSIT | .TRANSFER_IN | .MINT | .UNFREEZE => .ok (w.balance + amount)
  | .WITHDRAWAL | .TRANSFER_OUT | .BURN | .FEE | .FREEZE =>
      if w.balance < amount then .error .insufficientBalance
      else .ok (w.balance - amount)
  | .ADJUSTMENT => .ok amount

/-- The frozen-balance handling of `updateBalance` (lines 199-209): FREEZE
moves the amount into the frozen sub-balance, UNFREEZE moves it back after the
`currentFrozen < amountNum` check, all other kinds leave it unchanged. -/
def applyFrozen (w : WalletData) (amount : ℚ) (change_type : ChangeType) :
    Except UpdateBalanceError ℚ :=
  match change_type with
  | .FREEZE => .ok (w.frozen_balance + amount)
  | .UNFREEZE =>
      if w.frozen_balance < amount then .error .insufficientFrozenBalance
      else .ok (w.frozen_balance - amount)
  | _ => .ok w.frozen_balance

/-- The Ledger Store conditional mutation,
`WalletServiceService.updateBalance` (wallet-service.service.ts lines
131-244). The wallet is looked up by `(user_id, Currency.USDT)` (line 155,
"Default to USDT") under a pessimistic write lock; an amount `≤ 0` is rejected,
a missing wallet is rejected, a FROZEN wallet is rejected (line 163: only the
FROZEN status is checked, for every change kind); then the balance and frozen
arms are applied, the wallet is saved and one balance-history row is appended,
all inside one database transaction (commit after both writes, rollback on any
error). An error therefore leaves the state untouched; the function returns
the new state and the updated wallet on success. -/
def updateBalance (st : LedgerState) (user_id : Nat) (amount : ℚ)
    (change_type : ChangeType) (transaction_id : Option String) :
    Except UpdateBalanceError (LedgerState × WalletData) :=
  if amount ≤ 0 then .error .invalidAmount
  else
    match st.wallets (user_id, Currency.USDT) with
    | none => .error .walletNotFound
    | some w =>
      if w.status = WalletStatus.FROZEN then .error .walletFrozen
      else
        match applyChange w amount change_type with
        | .error e => .error e
        | .ok newBalance =>
          match applyFrozen w amount change_type with
          | .error e => .error e
          | .ok newFrozen =>
            let w2 : WalletData :=
              { balance := newBalance, frozen_balance := newFrozen,
                status := w.status }
            let entry : BalanceHistoryEntry :=
              { user_id := user_id, currency := Currency.USDT,
                old_balance := w.balance, new_balance := newBalance,
                amount := amount, change_type := change_type,
                transaction_id := transaction_id }
            .ok ({ wallets := fun k =>
                     if k = (user_id, Currency.USDT) then some w2
                     else st.wallets k,
                   history := st.history ++ [entry] }, w2)

/-- The ledger state observed after an `updateBalance` call: the new state on
success, the unchanged state on a rejected (rolled-back) mutation. -/
def updateBalanceState (st : LedgerState) (user_id : Nat) (amount : ℚ)
    (change_type : ChangeType) (transaction_id : Option String) : LedgerState :=
  match updateBalance st user_id amount change_type transaction_id with
  | .ok (st2, _) => st2
  | .error _ => st

/-- The change kinds of the debit arm of `updateBalance`. -/
def isDebitKind (ct : ChangeType) : Bool :=
  match ct with
  | .WITHDRAWAL | .TRANSFER_OUT | .BURN | .FEE | .FREEZE => true
  | _ => false

/-- The change kinds of the credit arm of `updateBalance`. -/
def isCreditKind (ct : ChangeType) : Bool :=
  match ct with
  | .DEPOSIT | .TRANSFER_IN | .MINT | .UNFREEZE => true
  | _ => false

/-! ## Settlement Pipeline (transaction-worker) -/

/-- Transaction kinds of a work item (`TransactionMessage.type`). -/
inductive TransactionType
  | MINT
  | BURN
  | TRANSFER
  | BULK_TRANSFER
deriving DecidableEq

/-- A settlement work item, `TransactionMessage` from
`transaction-worker` interfaces: id, kind, optional source and destination
users, amount and fee. -/
structure TransactionMessage where
  id : String
  type : TransactionType
  from_user_id : Option Nat
  to_user_id : Option Nat
  amount : ℚ
  fee : ℚ
deriving DecidableEq

/-- The CREDIT/DEBIT operation of a `WalletUpdateRequest`. -/
inductive WalletOperation
  | CREDIT
  | DEBIT
deriving DecidableEq

/-- A `WalletUpdateRequest` issued by the worker to the wallet service. -/
structure WalletUpdateRequest where
  user_id : Nat
  amount : ℚ
  operation : WalletOperation
  transaction_id : String
deriving DecidableEq

/-- `TransactionResult` returned by the processor: success flag, transaction
id, optional error message, and the applied wallet updates when the processing
ran (the idempotent short-circuit returns only the flag and the id). -/
structure TransactionResult where
  success : Bool
  transaction_id : String
  error : Option String
  wallet_updates : Option (List WalletUpdateRequest)
deriving DecidableEq

/-- `TransactionLogStatus` from `transaction-log.entity.ts`. -/
inductive TransactionLogStatus
  | RECEIVED
  | PROCESSING
  | COMPLETED
  | FAILED
  | RETRYING
  | DEAD_LETTER
deriving DecidableEq

/-- A `TransactionLog` row (SettlementLog), keyed by its unique transaction
id in the store below. -/
structure TransactionLog where
  status : TransactionLogStatus
  retry_count : Nat
  max_retries : Nat
  error_message : Option String
  transaction_data : Option TransactionMessage
  wallet_updates : Option (List WalletUpdateRequest)
  processed_at : Option Nat
  next_retry_at : Option Nat
deriving DecidableEq

/-- The statuses the worker can request for a Transaction row through
`TransactionClientService.updateTransactionStatus`. -/
inductive TxStatus
  | PROCESSING
  | COMPLETED
  | FAILED
deriving DecidableEq

/-- The Transaction-status record held by the transaction service for one
transaction id, as driven by the worker. -/
structure TxStatusRecord where
  status : TxStatus
  failure_reason : Option String
deriving DecidableEq

/-- A `TransactionLimit` row of the transaction service
(`transaction-limit.entity.ts`): daily/monthly limits, current usage
counters, reset dates (milliseconds) and the active flag. -/
structure TransactionLimit where
  daily_limit : ℚ
  monthly_limit : ℚ
  current_daily : ℚ
  current_monthly : ℚ
  daily_reset_date : Nat
  monthly_reset_date : Nat
  is_active : Bool
deriving DecidableEq

/-- The state the Settlement Pipeline acts on: the wallet-service ledger
(reached over HTTP, so its mutations commit independently of the worker
database), the worker's own settlement-log store, the transaction-service
status records and limit counters, and the current time in milliseconds. -/
structure WorkerState where
  ledger : LedgerState
  logs : String → Option TransactionLog
  txStatus : String → Option TxStatusRecord
  limits : Nat → Option TransactionLimit
  now : Nat

/-- Modelled from the spec: the transaction-service internal
`process-transaction` endpoint that
`TransactionClientService.updateTransactionStatus` posts to is a placeholder
in the source (`transaction-service.controller.ts` returns a canned success
without touching the Transaction row); the spec has the pipeline advance the
Transaction status through this call, so it is modelled as recording the
requested status and failure reason under the transaction id. -/
def setTxStatus (f : String → Option TxStatusRecord) (id : String)
    (s : TxStatus) (reason : Option String) : String → Option TxStatusRecord :=
  fun k => if k = id then some { status := s, failure_reason := reason } else f k

/-- `Repository.update(criteria, partial)` semantics used by
`handleTransactionFailure` and `moveToDeadLetterQueue`: an UPDATE against the
row with the given transaction id, which modifies the row when it exists and
affects nothing when it does not (TypeORM `update` is not an upsert). -/
def updateLogIfExists (f : String → Option TransactionLog) (id : String)
    (g : TransactionLog → TransactionLog) : String → Option TransactionLog :=
  fun k => if k = id then (f k).map g else f k

/-- `WalletClientService.getBalance`: reads the balance of the user wallet
over the internal balance endpoint; the wallet service resolves the user
wallet created per user (USDT by default). Returns the wallet data or none. -/
def getBalanceClient (led : LedgerState) (uid : Nat) : Option WalletData :=
  led.wallets (uid, Currency.USDT)

/-- `WalletClientService.validateWalletExists`: the balance lookup found a
wallet. -/
def validateWalletExists (led : LedgerState) (uid : Nat) : Bool :=
  (getBalanceClient led uid).isSome

/-- `WalletClientService.updateBalance`: posts
`{user_id, amount, operation, transaction_id, description}` to the
wallet-service internal update-balance endpoint and returns true only on
HTTP 200. The endpoint binds the body to `UpdateBalanceDto`, which requires
a `change_type : ChangeType` field and has no `operation` field; the wallet
service runs a global `ValidationPipe` with `whitelist: true` and
`forbidNonWhitelisted: true` (wallet-service `main.ts`), so the posted
payload is rejected with 400 before any handler runs — and even absent the
pipe, `WalletServiceService.updateBalance` would hit the
`switch (change_type)` default and throw Invalid change type, rolling back.
The axios call therefore throws, the client catches it and returns false,
and no ledger mutation is ever applied: the call fails for every request,
leaving the ledger unchanged. -/
def walletClientUpdateBalance (led : LedgerState) (r : WalletUpdateRequest) :
    LedgerState × Bool :=
  (led, false)

/-- `TransactionProcessorService.processMint` (lines 151-186): require a
destination, require the destination wallet to exist, then credit it by the
amount through the wallet client. -/
def processMint (led : LedgerState) (tx : TransactionMessage) :
    LedgerState × Except String (List WalletUpdateRequest) :=
  match tx.to_user_id with
  | none => (led, .error ("MINT transaction missing to_user_id"))
  | some to_uid =>
    if validateWalletExists led to_uid then
      let req : WalletUpdateRequest :=
        { user_id := to_uid, amount := tx.amount, operation := .CREDIT,
          transaction_id := tx.id }
      let step := walletClientUpdateBalance led req
      if step.2 then (step.1, .ok [req])
      else (step.1, .error ("Failed to update wallet balance for MINT"))
    else (led, .error ("Target wallet not found"))

/-- `TransactionProcessorService.processBurn` (lines 188-230): require a
source, re-check the available balance (balance minus frozen) against the
amount at settlement time, then debit the source through the wallet client. -/
def processBurn (led : LedgerState) (tx : TransactionMessage) :
    LedgerState × Except String (List WalletUpdateRequest) :=
  match tx.from_user_id with
  | none => (led, .error ("BURN transaction missing from_user_id"))
  | some from_uid =>
    match getBalanceClient led from_uid with
    | none => (led, .error ("Source wallet not found"))
    | some w =>
      if w.balance - w.frozen_balance < tx.amount then
        (led, .error ("Insufficient balance for BURN"))
      else
        let req : WalletUpdateRequest :=
          { user_id := from_uid, amount := tx.amount, operation := .DEBIT,
            transaction_id := tx.id }
        let step := walletClientUpdateBalance led req
        if step.2 then (step.1, .ok [req])
        else (step.1, .error ("Failed to update wallet balance for BURN"))

/-- `TransactionProcessorService.processTransfer` (lines 232-300): require
source and destination, look up the source balance and check the destination
exists, check available balance against amount plus fee, then issue the two
wallet updates sequentially — debit the source by amount plus fee, credit the
destination by the amount — each as an independent HTTP call to the wallet
service; the first failed call aborts the loop with an error, leaving any
update already applied by an earlier call committed on the wallet service. -/
def processTransfer (led : LedgerState) (tx : TransactionMessage) :
    LedgerState × Except String (List WalletUpdateRequest) :=
  match tx.from_user_id, tx.to_user_id with
  | none, _ => (led, .error ("TRANSFER transaction missing from_user_id or to_user_id"))
  | _, none => (led, .error ("TRANSFER transaction missing from_user_id or to_user_id"))
  | some from_uid, some to_uid =>
    match getBalanceClient led from_uid with
    | none => (led, .error ("Source wallet not found"))
    | some sourceWallet =>
      if validateWalletExists led to_uid then
        let totalDebit := tx.amount + tx.fee
        if sourceWallet.balance - sourceWallet.frozen_balance < totalDebit then
          (led, .error ("Insufficient balance for TRANSFER"))
        else
          let debitReq : WalletUpdateRequest :=
            { user_id := from_uid, amount := totalDebit, operation := .DEBIT,
              transaction_id := tx.id }
          let creditReq : WalletUpdateRequest :=
            { user_id := to_uid, amount := tx.amount, operation := .CREDIT,
              transaction_id := tx.id }
          let step1 := walletClientUpdateBalance led debitReq
          if step1.2 then
            let step2 := walletClientUpdateBalance step1.1 creditReq
            if step2.2 then (step2.1, .ok [debitReq, creditReq])
            else (step2.1, .error ("Failed to update wallet balance for user"))
          else (step1.1, .error ("Failed to update wallet balance for user"))
      else (led, .error ("Target wallet not found"))

/-- `TransactionProcessorService.processBulkTransfer` (lines 302-311):
delegates to `processTransfer` for the single leg carried by the message. -/
def processBulkTransfer (led : LedgerState) (tx : TransactionMessage) :
    LedgerState × Except String (List WalletUpdateRequest) :=
  processTransfer led tx

/-- The `switch (transaction.type)` dispatch of `processTransaction`
(lines 93-108). -/
def dispatch (led : LedgerState) (tx : TransactionMessage) :
    LedgerState × Except String (List WalletUpdateRequest) :=
  match tx.type with
  | .MINT => processMint led tx
  | .BURN => processBurn led tx
  | .TRANSFER => processTransfer led tx
  | .BULK_TRANSFER => processBulkTransfer led tx

/-- `TransactionProcessorService.handleTransactionFailure` (lines 313-348),
run after the worker rolled back its own log transaction. With the retry
budget exhausted (`retry_count >= max_retries`) it moves the log to
DEAD_LETTER (`moveToDeadLetterQueue`, lines 350-371) and requests the
Transaction be marked FAILED; otherwise it schedules the next retry at
`now + 2^retry_count * 30000` milliseconds and bumps the stored retry count.
Both paths write through `Repository.update` keyed by transaction id, which
only affects a row that exists in the committed store. -/
def handleTransactionFailure (st : WorkerState) (tx : TransactionMessage)
    (msg : String) (retry_count max_retries : Nat) : WorkerState :=
  if max_retries ≤ retry_count then
    { st with
      logs := updateLogIfExists st.logs tx.id (fun l =>
        { l with status := .DEAD_LETTER,
                 error_message := some ("DEAD_LETTER: " ++ msg),
                 processed_at := some st.now }),
      txStatus := setTxStatus st.txStatus tx.id .FAILED
        (some ("Max retries exceeded: " ++ msg)) }
  else
    { st with
      logs := updateLogIfExists st.logs tx.id (fun l =>
        { l with status := .RETRYING,
                 error_message := some msg,
                 next_retry_at := some (st.now + 2 ^ retry_count * 30000),
                 retry_count := retry_count + 1 }) }

/-- One processing attempt (the body of `processTransaction` from the
query-runner transaction on, lines 62-148). The worker opens a database
transaction that covers only its own `transaction_logs` store: the log
create/advance is buffered in it. The Transaction status update and the
ledger mutations are HTTP calls to other services and commit immediately and
independently. On success the log is saved as COMPLETED and the transaction
commits, then COMPLETED is requested for the Transaction; on any processing
error the log transaction is rolled back (discarding the buffered log write,
but not the external effects) and `handleTransactionFailure` runs against the
committed stores. -/
def processAttempt (st : WorkerState) (tx : TransactionMessage)
    (rc maxr : Nat) (existing : Option TransactionLog) :
    WorkerState × TransactionResult :=
  let inTxLog : TransactionLog :=
    match existing with
    | none =>
      { status := .PROCESSING, retry_count := 0, max_retries := 3,
        error_message := none, transaction_data := some tx,
        wallet_updates := none, processed_at := none, next_retry_at := none }
    | some l => { l with status := .PROCESSING, retry_count := l.retry_count + 1 }
  let txStatus1 := setTxStatus st.txStatus tx.id .PROCESSING none
  let step := dispatch st.ledger tx
  match step.2 with
  | .ok updates =>
    let doneLog : TransactionLog :=
      { inTxLog with status := .COMPLETED, processed_at := some st.now,
                     wallet_updates := some updates, error_message := none }
    ({ st with
        ledger := step.1,
        logs := fun k => if k = tx.id then some doneLog else st.logs k,
        txStatus := setTxStatus txStatus1 tx.id .COMPLETED none },
     { success := true, transaction_id := tx.id, error := none,
       wallet_updates := some updates })
  | .error msg =>
    let st2 : WorkerState := { st with ledger := step.1, txStatus := txStatus1 }
    (handleTransactionFailure st2 tx msg rc maxr,
     { success := false, transaction_id := tx.id, error := some msg,
       wallet_updates := none })

/-- `TransactionProcessorService.processTransaction` (lines 26-149): the
idempotency check first — a COMPLETED log short-circuits to a success result
and a DEAD_LETTER log to a failure result, both without touching any store —
otherwise one processing attempt runs with the retry context taken from the
existing log (or 0 of 3 for a first delivery). -/
def processTransaction (st : WorkerState) (tx : TransactionMessage) :
    WorkerState × TransactionResult :=
  match st.logs tx.id with
  | some l =>
    if l.status = .COMPLETED then
      (st, { success := true, transaction_id := tx.id, error := none,
             wallet_updates := none })
    else if l.status = .DEAD_LETTER then
      (st, { success := false, transaction_id := tx.id,
             error := some ("Transaction in dead letter queue"),
             wallet_updates := none })
    else processAttempt st tx l.retry_count l.max_retries (some l)
  | none => processAttempt st tx 0 3 none

/-- N successive deliveries of the same work item to the pipeline. -/
def deliverN (st : WorkerState) (tx : TransactionMessage) : Nat → WorkerState
  | 0 => st
  | n + 1 => (processTransaction (deliverN st tx n) tx).1

/-! ## Intake Service limit logic (transaction-service) -/

/-- Caller roles (role strings of the source: USER, ADMIN, SUPER_ADMIN). -/
inductive Role
  | USER
  | ADMIN
  | SUPER_ADMIN
deriving DecidableEq

/-- The caller identity supplied by the auth collaborator. -/
structure UserInfo where
  id : Nat
  role : Role
deriving DecidableEq

/-- One leg of a `BulkTransferDto`. -/
structure BulkLeg where
  to_user_id : Nat
  amount : ℚ
deriving DecidableEq

/-- A created Transaction row, reduced to the fields the limit claims
observe. -/
structure TransactionRec where
  from_user_id : Nat
  to_user_id : Nat
  amount : ℚ
  fee : ℚ
deriving DecidableEq

/-- Typed intake errors (the thrown exception variants). -/
inductive IntakeError
  | forbidden
  | invalidAmount
  | walletNotFound
  | insufficientBalance
  | selfTransfer
  | targetWalletInvalid
  | emptyBatch
  | batchTooLarge
  | limitsDisabled
  | dailyLimitExceeded
  | monthlyLimitExceeded
deriving DecidableEq

/-- `TRANSACTION_FEE_RATE = 0.001` (0.1 percent). -/
def TRANSACTION_FEE_RATE : ℚ := 1 / 1000

/-- `MIN_TRANSACTION_AMOUNT = 0.00000001`. -/
def MIN_TRANSACTION_AMOUNT : ℚ := 1 / 100000000

/-- `createDefaultTransactionLimits` (transaction-service.service.ts lines
524-540): daily 10000, monthly 100000, zero usage, daily reset today and
monthly reset at the first of next month. -/
def defaultLimits (now nextMonth : Nat) : TransactionLimit :=
  { daily_limit := 10000, monthly_limit := 100000,
    current_daily := 0, current_monthly := 0,
    daily_reset_date := now, monthly_reset_date := nextMonth,
    is_active := true }

/-- `resetLimitsIfNeeded` (lines 542-564): when today reached the stored
reset boundary, zero the counter and push the boundary (next day for the
daily counter, first of next month — passed in as `nextMonth` — for the
monthly counter). -/
def resetLimitsIfNeeded (now nextMonth : Nat) (l : TransactionLimit) :
    TransactionLimit :=
  let l1 :=
    if l.daily_reset_date ≤ now then
      { l with current_daily := 0, daily_reset_date := now + 86400000 }
    else l
  if l1.monthly_reset_date ≤ now then
    { l1 with current_monthly := 0, monthly_reset_date := nextMonth }
  else l1

/-- `checkTransactionLimits` (lines 487-512): load (or create) the caller
limits, reject when disabled, lazily reset, then reject when the usage plus
the requested amount would exceed the daily or the monthly limit. Returns the
store with any creation/reset persisted, and the verdict. Called by
`burnTokens` and `transferTokens` before the usage is incremented —
`bulkTransfer` does not call it. -/
def checkTransactionLimits (store : Nat → Option TransactionLimit)
    (uid : Nat) (amount : ℚ) (now nextMonth : Nat) :
    (Nat → Option TransactionLimit) × Except IntakeError Unit :=
  let l0 := match store uid with
    | some l => l
    | none => defaultLimits now nextMonth
  let store1 : Nat → Option TransactionLimit :=
    fun k => if k = uid then some l0 else store k
  if l0.is_active = false then (store1, .error .limitsDisabled)
  else
    let l1 := resetLimitsIfNeeded now nextMonth l0
    let store2 : Nat → Option TransactionLimit :=
      fun k => if k = uid then some l1 else store k
    if l1.daily_limit < l1.current_daily + amount then
      (store2, .error .dailyLimitExceeded)
    else if l1.monthly_limit < l1.current_monthly + amount then
      (store2, .error .monthlyLimitExceeded)
    else (store2, .ok ())

/-- `updateTransactionLimitsUsage` (lines 514-522): increment the stored
daily and monthly usage counters by the amount when a row exists; silently do
nothing when it does not. No bound is checked here. -/
def updateTransactionLimitsUsage (store : Nat → Option TransactionLimit)
    (uid : Nat) (amount : ℚ) : Nat → Option TransactionLimit :=
  fun k =>
    if k = uid then
      (store k).map (fun l =>
        { l with current_daily := l.current_daily + amount,
                 current_monthly := l.current_monthly + amount })
    else store k

/-- `bulkTransfer` (lines 275-375): admin role required, between 1 and 100
legs, every leg amount above the minimum; the grand total is the sum of the
leg amounts plus the 0.1 percent fee; the source wallet must exist and have
the grand total available; each distinct target must differ from the caller
and hold an ACTIVE wallet. It then creates one BULK_TRANSFER transaction per
leg and calls `updateTransactionLimitsUsage` with the grand total — without
ever calling `checkTransactionLimits`. -/
def bulkTransfer (store : Nat → Option TransactionLimit) (led : LedgerState)
    (user : UserInfo) (transfers : List BulkLeg) :
    (Nat → Option TransactionLimit) × Except IntakeError (List TransactionRec) :=
  if user.role ≠ Role.ADMIN ∧ user.role ≠ Role.SUPER_ADMIN then
    (store, .error .forbidden)
  else if transfers.length = 0 then (store, .error .emptyBatch)
  else if 100 < transfers.length then (store, .error .batchTooLarge)
  else if transfers.any (fun t => t.amount ≤ MIN_TRANSACTION_AMOUNT) then
    (store, .error .invalidAmount)
  else
    let totalAmount := (transfers.map BulkLeg.amount).sum
    let totalFee := totalAmount * TRANSACTION_FEE_RATE
    let grandTotal := totalAmount + totalFee
    match led.wallets (user.id, Currency.USDT) with
    | none => (store, .error .walletNotFound)
    | some sourceWallet =>
      if sourceWallet.balance - sourceWallet.frozen_balance < grandTotal then
        (store, .error .insufficientBalance)
      else
        let targets := (transfers.map BulkLeg.to_user_id).dedup
        if targets.any (fun t => t = user.id) then (store, .error .selfTransfer)
        else if targets.any (fun t =>
            match led.wallets (t, Currency.USDT) with
            | none => true
            | some w => w.status ≠ WalletStatus.ACTIVE) then
          (store, .error .targetWalletInvalid)
        else
          let created := transfers.map (fun t =>
            { from_user_id := user.id, to_user_id := t.to_user_id,
              amount := t.amount,
              fee := t.amount * TRANSACTION_FEE_RATE : TransactionRec })
          (updateTransactionLimitsUsage store user.id grandTotal, .ok created)

/-! ## Observed outcomes used by the claims -/

/-- A debit-kind mutation rejected for insufficient balance, leaving the
ledger untouched. -/
def DebitRejected (st : LedgerState) (u : Nat) (a : ℚ) (ct : ChangeType)
    (txid : Option String) : Prop :=
  updateBalance st u a ct txid = .error .insufficientBalance ∧
  updateBalanceState st u a ct txid = st

/-- A mutation accepted with the stated new balance, writing the balance and
appending exactly one history entry whose fields record the prior and new
balances and the amount, in one atomic unit. -/
def MutationApplied (st : LedgerState) (u : Nat) (a : ℚ) (ct : ChangeType)
    (txid : Option String) (prior newBal : ℚ) : Prop :=
  ∃ st2 w2, updateBalance st u a ct txid = .ok (st2, w2) ∧
    w2.balance = newBal ∧
    st2.wallets (u, Currency.USDT) = some w2 ∧
    st2.history = st.history ++
      [{ user_id := u, currency := Currency.USDT, old_balance := prior,
         new_balance := newBal, amount := a, change_type := ct,
         transaction_id := txid }]

/-! ## Concrete fixtures -/

/-- Ledger with two active wallets. -/
def ledgerC1w : LedgerState :=
  { wallets := fun k =>
      if k = (1, Currency.USDT) then some ⟨100, 0, .ACTIVE⟩
      else if k = (2, Currency.USDT) then some ⟨5, 0, .ACTIVE⟩
      else none,
    history := [] }

/-- A transfer of 50 with fee 0.05 from user 1 to user 2. -/
def txC1w : TransactionMessage :=
  { id := "w1", type := .TRANSFER, from_user_id := some 1, to_user_id := some 2,
    amount := 50, fee := 1 / 20 }

/-- Ledger with one empty active wallet for user 1. -/
def ledgerC2 : LedgerState :=
  { wallets := fun k =>
      if k = (1, Currency.USDT) then some ⟨0, 0, .ACTIVE⟩ else none,
    history := [] }

/-- Worker state with an empty log store over `ledgerC2`. -/
def stC2 : WorkerState :=
  { ledger := ledgerC2, logs := fun _ => none, txStatus := fun _ => none,
    limits := fun _ => none, now := 0 }

/-- A mint of 100 to user 1. -/
def txC2 : TransactionMessage :=
  { id := "m2", type := .MINT, from_user_id := none, to_user_id := some 1,
    amount := 100, fee := 0 }

/-- A COMPLETED settlement-log row. -/
def logC2w : TransactionLog :=
  { status := .COMPLETED, retry_count := 0, max_retries := 3,
    error_message := none, transaction_data := none, wallet_updates := none,
    processed_at := none, next_retry_at := none }

/-- Worker state whose log store already holds `logC2w` for id m1. -/
def stC2w : WorkerState :=
  { ledger := { wallets := fun _ => none, history := [] },
    logs := fun k => if k = "m1" then some logC2w else none,
    txStatus := fun _ => none, limits := fun _ => none, now := 0 }

/-- A mint of 5 to user 1 with id m1. -/
def txC2w : TransactionMessage :=
  { id := "m1", type := .MINT, from_user_id := none, to_user_id := some 1,
    amount := 5, fee := 0 }

/-- Ledger for the storage-transaction claim: the source wallet of user 1
holds 100 and the destination wallet of user 2 holds 40, both ACTIVE —
a transfer of 50 plus fee is fully funded and, per the spec, settles. -/
def ledgerC3v : LedgerState :=
  { wallets := fun k =>
      if k = (1, Currency.USDT) then some ⟨100, 0, .ACTIVE⟩
      else if k = (2, Currency.USDT) then some ⟨40, 0, .ACTIVE⟩
      else none,
    history := [] }

/-- Worker state over `ledgerC3v` with an empty log store. -/
def stC3v : WorkerState :=
  { ledger := ledgerC3v, logs := fun _ => none, txStatus := fun _ => none,
    limits := fun _ => none, now := 2000 }

/-- A fully funded transfer of 50 with fee 0.05 from user 1 to user 2. -/
def txC3v : TransactionMessage :=
  { id := "t3", type := .TRANSFER, from_user_id := some 1, to_user_id := some 2,
    amount := 50, fee := 1 / 20 }

/-- A limit row with the default bounds and no usage. -/
def limitC4 : TransactionLimit :=
  { daily_limit := 10000, monthly_limit := 100000, current_daily := 0,
    current_monthly := 0, daily_reset_date := 0, monthly_reset_date := 0,
    is_active := true }

/-- Limit store holding `limitC4` for user 1. -/
def storeC4 : Nat → Option TransactionLimit :=
  fun k => if k = 1 then some limitC4 else none

/-- Ledger where admin user 1 holds 20000 and user 2 holds an active empty
wallet. -/
def ledgerC4 : LedgerState :=
  { wallets := fun k =>
      if k = (1, Currency.USDT) then some ⟨20000, 0, .ACTIVE⟩
      else if k = (2, Currency.USDT) then some ⟨0, 0, .ACTIVE⟩
      else none,
    history := [] }

/-- Ledger with a wallet of balance 100 and frozen 30 for user 1. -/
def ledgerC5 : LedgerState :=
  { wallets := fun k =>
      if k = (1, Currency.USDT) then some ⟨100, 30, .ACTIVE⟩ else none,
    history := [] }

/-- Ledger where the source wallet of user 1 holds only 10. -/
def ledgerC6 : LedgerState :=
  { wallets := fun k =>
      if k = (1, Currency.USDT) then some ⟨10, 0, .ACTIVE⟩
      else if k = (2, Currency.USDT) then some ⟨0, 0, .ACTIVE⟩
      else none,
    history := [] }

/-- Worker state over `ledgerC6` with an empty log store. -/
def stC6 : WorkerState :=
  { ledger := ledgerC6, logs := fun _ => none, txStatus := fun _ => none,
    limits := fun _ => none, now := 5000 }

/-- A transfer of 50 with fee 0.05 from user 1 (balance 10) to user 2. -/
def txC6 : TransactionMessage :=
  { id := "t6", type := .TRANSFER, from_user_id := some 1, to_user_id := some 2,
    amount := 50, fee := 1 / 20 }

/-- A committed RETRYING log row with one recorded retry. -/
def logC6 : TransactionLog :=
  { status := .RETRYING, retry_count := 1, max_retries := 3,
    error_message := none, transaction_data := none, wallet_updates := none,
    processed_at := none, next_retry_at := none }

/-- Worker state over `ledgerC6` whose log store holds `logC6` for id t6. -/
def stC6b : WorkerState :=
  { ledger := ledgerC6, logs := fun k => if k = "t6" then some logC6 else none,
    txStatus := fun _ => none, limits := fun _ => none, now := 5000 }

/-- A RETRYING log row whose retry budget is exhausted. -/
def logC7 : TransactionLog :=
  { status := .RETRYING, retry_count := 3, max_retries := 3,
    error_message := none, transaction_data := none, wallet_updates := none,
    processed_at := none, next_retry_at := none }

/-- A limit row whose usage counters carry the reservation of 100.1 made at
intake for the transfer of 100 with fee 0.1 (pre-reservation value 0). -/
def limitC7 : TransactionLimit :=
  { daily_limit := 10000, monthly_limit := 100000,
    current_daily := 1001 / 10, current_monthly := 1001 / 10,
    daily_reset_date := 0, monthly_reset_date := 0, is_active := true }

/-- Worker state: empty source wallet, exhausted log row for id t7, and the
reserved limit counters of `limitC7` for user 1. -/
def stC7 : WorkerState :=
  { ledger :=
      { wallets := fun k =>
          if k = (1, Currency.USDT) then some ⟨0, 0, .ACTIVE⟩
          else if k = (2, Currency.USDT) then some ⟨0, 0, .ACTIVE⟩
          else none,
        history := [] },
    logs := fun k => if k = "t7" then some logC7 else none,
    txStatus := fun _ => none,
    limits := fun k => if k = 1 then some limitC7 else none, now := 9000 }

/-- The transfer of 100 with fee 0.1 from user 1 to user 2, id t7. -/
def txC7 : TransactionMessage :=
  { id := "t7", type := .TRANSFER, from_user_id := some 1, to_user_id := some 2,
    amount := 100, fee := 1 / 10 }

/-- Ledger with a SUSPENDED wallet for user 3. -/
def ledgerC8s : LedgerState :=
  { wallets := fun k =>
      if k = (3, Currency.USDT) then some ⟨50, 0, .SUSPENDED⟩ else none,
    history := [] }

/-- Ledger with a FROZEN wallet for user 4. -/
def ledgerC8f : LedgerState :=
  { wallets := fun k =>
      if k = (4, Currency.USDT) then some ⟨50, 0, .FROZEN⟩ else none,
    history := [] }

/-- Ledger with a wallet of balance 100 for user 1, used by the adjustment
claim. -/
def ledgerC9 : LedgerState :=
  { wallets := fun k =>
      if k = (1, Currency.USDT) then some ⟨100, 0, .ACTIVE⟩ else none,
    history := [] }

/-! ## Helper lemmas about the ledger mutation -/

theorem updateBalance_ok_intro {st : LedgerState} {u : Nat} {a : ℚ}
    {ct : ChangeType} {txid : Option String} {w : WalletData} {nb nf : ℚ}
    (hw : st.wallets (u, Currency.USDT) = some w) (ha : 0 < a)
    (hfz : w.status ≠ WalletStatus.FROZEN)
    (hc : applyChange w a ct = .ok nb) (hf : applyFrozen w a ct = .ok nf) :
    updateBalance st u a ct txid =
      .ok ({ wallets := fun k =>
               if k = (u, Currency.USDT) then some ⟨nb, nf, w.status⟩
               else st.wallets k,
             history := st.history ++
               [{ user_id := u, currency := Currency.USDT,
                  old_balance := w.balance, new_balance := nb, amount := a,
                  change_type := ct, transaction_id := txid }] },
           ⟨nb, nf, w.status⟩) := by
  simp only [updateBalance, hw, hc, hf, if_neg (not_le.mpr ha), if_neg hfz]

theorem updateBalance_ok_elim {st : LedgerState} {u : Nat} {a : ℚ}
    {ct : ChangeType} {txid : Option String} {st2 : LedgerState}
    {w2 : WalletData}
    (h : updateBalance st u a ct txid = .ok (st2, w2)) :
    ∃ w, st.wallets (u, Currency.USDT) = some w ∧ 0 < a ∧
      w.status ≠ WalletStatus.FROZEN ∧
      applyChange w a ct = .ok w2.balance ∧
      applyFrozen w a ct = .ok w2.frozen_balance ∧
      w2.status = w.status ∧
      st2.wallets = (fun k =>
        if k = (u, Currency.USDT) then some w2 else st.wallets k) ∧
      st2.history = st.history ++
        [{ user_id := u, currency := Currency.USDT, old_balance := w.balance,
           new_balance := w2.balance, amount := a, change_type := ct,
           transaction_id := txid }] := by
  unfold updateBalance at h
  split at h
  · exact absurd h (by simp)
  split at h
  · exact absurd h (by simp)
  next w hw =>
  split at h
  · exact absurd h (by simp)
  next hfz =>
  split at h
  · exact absurd h (by simp)
  next nb hc =>
  split at h
  · exact absurd h (by simp)
  next nf hf =>
  simp only [Except.ok.injEq, Prod.mk.injEq] at h
  obtain ⟨hst2, hw2⟩ := h
  subst hst2
  subst hw2
  exact ⟨w, hw, not_le.mp (by assumption), hfz, hc, hf, rfl, rfl, rfl⟩

theorem applyChange_ne_walletFrozen (w : WalletData) (a : ℚ)
    (ct : ChangeType) :
    applyChange w a ct ≠ .error .walletFrozen := by
  cases ct <;> simp only [applyChange] <;> intro h <;>
    first
      | simp at h
      | (split at h <;> simp_all)

theorem applyFrozen_ne_walletFrozen (w : WalletData) (a : ℚ)
    (ct : ChangeType) :
    applyFrozen w a ct ≠ .error .walletFrozen := by
  cases ct <;> simp only [applyFrozen] <;> intro h <;>
    first
      | simp at h
      | (split at h <;> simp_all)

/-! ## Claim C5 -/

/-- Claim C5: the ledger conditional-mutation postcondition. For a debit-kind
mutation of amount a on an existing, non-frozen wallet with prior balance b:
when b − a would be negative the mutation is rejected with
INSUFFICIENT_BALANCE and the state is unchanged; otherwise it is accepted,
the new balance b − a is written and exactly one history entry with
new = prior − a is appended, atomically. Credit kinds symmetrically add a
(UNFREEZE additionally requires the frozen sub-balance to cover a). -/
theorem c5_conditional_mutation_postcondition
    (st : LedgerState) (u : Nat) (a : ℚ) (ct : ChangeType)
    (txid : Option String) (w : WalletData)
    (hw : st.wallets (u, Currency.USDT) = some w)
    (hfz : w.status ≠ WalletStatus.FROZEN) (ha : 0 < a) :
    (isDebitKind ct = true → w.balance < a →
       DebitRejected st u a ct txid) ∧
    (isDebitKind ct = true → a ≤ w.balance →
       MutationApplied st u a ct txid w.balance (w.balance - a)) ∧
    (isCreditKind ct = true → (ct = ChangeType.UNFREEZE → a ≤ w.frozen_balance) →
       MutationApplied st u a ct txid w.balance (w.balance + a)) := by
  refine ⟨?_, ?_, ?_⟩
  · intro hk hlt
    have herr : updateBalance st u a ct txid = .error .insufficientBalance := by
      cases ct <;> simp_all [updateBalance, applyChange, isDebitKind,
        if_neg (not_le.mpr ha), hw, hfz]
    exact ⟨herr, by simp [updateBalanceState, herr]⟩
  · intro hk hle
    have hc : applyChange w a ct = .ok (w.balance - a) := by
      cases ct <;> simp_all [applyChange, isDebitKind, not_lt.mpr hle]
    have hf : ∃ nf, applyFrozen w a ct = .ok nf := by
      cases ct <;> simp_all [applyFrozen, isDebitKind]
    obtain ⟨nf, hf⟩ := hf
    exact ⟨_, _, updateBalance_ok_intro hw ha hfz hc hf, rfl, by simp, by simp⟩
  · intro hk hu
    have hc : applyChange w a ct = .ok (w.balance + a) := by
      cases ct <;> simp_all [applyChange, isCreditKind]
    have hf : ∃ nf, applyFrozen w a ct = .ok nf := by
      cases ct <;> simp_all [applyFrozen, isCreditKind, not_lt.mpr]
    obtain ⟨nf, hf⟩ := hf
    exact ⟨_, _, updateBalance_ok_intro hw ha hfz hc hf, rfl, by simp, by simp⟩

/-- Witness for C5 at a concrete wallet of balance 100: a withdrawal of 40 is
applied with new balance 60, a withdrawal of 200 is rejected, and a deposit
of 40 is applied with new balance 140. -/
theorem c5_conditional_mutation_postcondition_witness :
    ledgerC5.wallets (1, Currency.USDT) =
      some ⟨100, 30, WalletStatus.ACTIVE⟩ ∧
    (0 : ℚ) < 40 ∧ (0 : ℚ) < 200 ∧
    MutationApplied ledgerC5 1 40 ChangeType.WITHDRAWAL none 100 (100 - 40) ∧
    DebitRejected ledgerC5 1 200 ChangeType.WITHDRAWAL none ∧
    MutationApplied ledgerC5 1 40 ChangeType.DEPOSIT none 100 (100 + 40) := by
  have hw : ledgerC5.wallets (1, Currency.USDT) =
      some ⟨100, 30, WalletStatus.ACTIVE⟩ := by
    simp [ledgerC5]
  refine ⟨hw, by norm_num, by norm_num, ?_, ?_, ?_⟩
  · exact (c5_conditional_mutation_postcondition ledgerC5 1 40
      ChangeType.WITHDRAWAL none ⟨100, 30, WalletStatus.ACTIVE⟩ hw
      (by simp) (by norm_num)).2.1 rfl (by norm_num)
  · exact (c5_conditional_mutation_postcondition ledgerC5 1 200
      ChangeType.WITHDRAWAL none ⟨100, 30, WalletStatus.ACTIVE⟩ hw
      (by simp) (by norm_num)).1 rfl (by norm_num)
  · exact (c5_conditional_mutation_postcondition ledgerC5 1 40
      ChangeType.DEPOSIT none ⟨100, 30, WalletStatus.ACTIVE⟩ hw
      (by simp) (by norm_num)).2.2 rfl (by simp)

/-! ## Claim C8 -/

/-- Counterexample for C8. The claim states that every mutation on a wallet
whose status is not ACTIVE is rejected with WALLET_FROZEN, except kinds
UNFREEZE and ADJUSTMENT which are accepted regardless of status. The code
refutes both halves: a DEPOSIT on a SUSPENDED wallet is not rejected with
WALLET_FROZEN (the status gate checks only FROZEN), and an ADJUSTMENT on a
FROZEN wallet is rejected with WALLET_FROZEN (the gate precedes the kind
dispatch and admits no exception). -/
theorem c8_frozen_gating_counterexample :
    updateBalance ledgerC8s 3 10 ChangeType.DEPOSIT none ≠
      .error UpdateBalanceError.walletFrozen ∧
    updateBalance ledgerC8f 4 10 ChangeType.ADJUSTMENT none =
      .error UpdateBalanceError.walletFrozen := by
  constructor
  · intro h
    norm_num +decide [updateBalance, applyChange, applyFrozen, ledgerC8s] at h
    exact Except.noConfusion h
  · norm_num +decide [updateBalance, ledgerC8f]

/-- Claim C8 (amended): for a positive amount on an existing wallet, the
ledger mutation is rejected with WALLET_FROZEN exactly when the wallet
status is FROZEN, for every mutation kind including UNFREEZE and ADJUSTMENT;
wallets in SUSPENDED or CLOSED status are not gated. -/
theorem c8_frozen_gating_amended
    (st : LedgerState) (u : Nat) (a : ℚ) (ct : ChangeType)
    (txid : Option String) (w : WalletData)
    (hw : st.wallets (u, Currency.USDT) = some w) (ha : 0 < a) :
    (w.status = WalletStatus.FROZEN →
       updateBalance st u a ct txid = .error .walletFrozen) ∧
    (w.status ≠ WalletStatus.FROZEN →
       updateBalance st u a ct txid ≠ .error .walletFrozen) := by
  constructor
  · intro hf
    simp [updateBalance, hw, if_neg (not_le.mpr ha), hf]
  · intro hnf h
    simp only [updateBalance, hw, if_neg (not_le.mpr ha), if_neg hnf] at h
    cases hc : applyChange w a ct with
    | error e =>
      rw [hc] at h
      simp only [Except.error.injEq] at h
      exact applyChange_ne_walletFrozen w a ct (by rw [hc, h])
    | ok nb =>
      rw [hc] at h
      cases hf2 : applyFrozen w a ct with
      | error e =>
        rw [hf2] at h
        simp only [Except.error.injEq] at h
        exact applyFrozen_ne_walletFrozen w a ct (by rw [hf2, h])
      | ok nf =>
        rw [hf2] at h
        simp at h

/-- Witness for the amended C8: a deposit on the FROZEN wallet of user 4 is
rejected with WALLET_FROZEN, and the same deposit on the SUSPENDED wallet of
user 3 is not. -/
theorem c8_frozen_gating_amended_witness :
    ledgerC8f.wallets (4, Currency.USDT) =
      some ⟨50, 0, WalletStatus.FROZEN⟩ ∧ (0 : ℚ) < 10 ∧
    updateBalance ledgerC8f 4 10 ChangeType.DEPOSIT none =
      .error .walletFrozen ∧
    updateBalance ledgerC8s 3 10 ChangeType.DEPOSIT none ≠
      .error .walletFrozen := by
  have hwf : ledgerC8f.wallets (4, Currency.USDT) =
      some ⟨50, 0, WalletStatus.FROZEN⟩ := by simp [ledgerC8f]
  have hws : ledgerC8s.wallets (3, Currency.USDT) =
      some ⟨50, 0, WalletStatus.SUSPENDED⟩ := by simp [ledgerC8s]
  refine ⟨hwf, by norm_num, ?_, ?_⟩
  · exact (c8_frozen_gating_amended ledgerC8f 4 10 ChangeType.DEPOSIT none
      ⟨50, 0, WalletStatus.FROZEN⟩ hwf (by norm_num)).1 rfl
  · exact (c8_frozen_gating_amended ledgerC8s 3 10 ChangeType.DEPOSIT none
      ⟨50, 0, WalletStatus.SUSPENDED⟩ hws (by norm_num)).2 (by simp)

/-! ## Claim C9 -/

/-- Claim C9: an ADJUSTMENT mutation with positive amount a on an existing
non-frozen wallet with any prior balance succeeds with no
insufficient-balance check, and the resulting balance equals a itself (the
balance is set directly), with one history entry recording the prior balance
and a as the new balance. -/
theorem c9_adjustment_sets_balance
    (st : LedgerState) (u : Nat) (a : ℚ) (txid : Option String)
    (w : WalletData)
    (hw : st.wallets (u, Currency.USDT) = some w)
    (hfz : w.status ≠ WalletStatus.FROZEN) (ha : 0 < a) :
    updateBalance st u a ChangeType.ADJUSTMENT txid =
      .ok ({ wallets := fun k =>
               if k = (u, Currency.USDT) then
                 some ⟨a, w.frozen_balance, w.status⟩
               else st.wallets k,
             history := st.history ++
               [{ user_id := u, currency := Currency.USDT,
                  old_balance := w.balance, new_balance := a, amount := a,
                  change_type := ChangeType.ADJUSTMENT,
                  transaction_id := txid }] },
           ⟨a, w.frozen_balance, w.status⟩) :=
  updateBalance_ok_intro hw ha hfz rfl rfl

/-- Witness for C9: an ADJUSTMENT of 7 on the wallet of user 1 (prior
balance 100, larger than 7) succeeds and sets the balance to 7. -/
theorem c9_adjustment_sets_balance_witness :
    ledgerC9.wallets (1, Currency.USDT) =
      some ⟨100, 0, WalletStatus.ACTIVE⟩ ∧ (0 : ℚ) < 7 ∧
    updateBalance ledgerC9 1 7 ChangeType.ADJUSTMENT none =
      .ok ({ wallets := fun k =>
               if k = (1, Currency.USDT) then
                 some ⟨7, 0, WalletStatus.ACTIVE⟩
               else ledgerC9.wallets k,
             history := ledgerC9.history ++
               [{ user_id := 1, currency := Currency.USDT,
                  old_balance := 100, new_balance := 7, amount := 7,
                  change_type := ChangeType.ADJUSTMENT,
                  transaction_id := none }] },
           ⟨7, 0, WalletStatus.ACTIVE⟩) := by
  have hw : ledgerC9.wallets (1, Currency.USDT) =
      some ⟨100, 0, WalletStatus.ACTIVE⟩ := by simp [ledgerC9]
  exact ⟨hw, by norm_num,
    c9_adjustment_sets_balance ledgerC9 1 7 none ⟨100, 0, WalletStatus.ACTIVE⟩
      hw (by simp) (by norm_num)⟩

/-! ## Claim C10 -/

/-- Claim C10: every balance mutation resolves the target wallet as the
USDT wallet of the given user — a successful mutation requires that wallet
to exist — and leaves every other wallet key (any other user, and any other
currency of the same user) unchanged, whatever the outcome. -/
theorem c10_mutation_confined_to_usdt_wallet
    (st : LedgerState) (u : Nat) (a : ℚ) (ct : ChangeType)
    (txid : Option String) :
    (∀ k, k ≠ (u, Currency.USDT) →
       (updateBalanceState st u a ct txid).wallets k = st.wallets k) ∧
    (∀ r, updateBalance st u a ct txid = .ok r →
       (st.wallets (u, Currency.USDT)).isSome = true) := by
  constructor
  · intro k hk
    unfold updateBalanceState
    cases h : updateBalance st u a ct txid with
    | error e => rfl
    | ok p =>
      obtain ⟨st2, w2⟩ := p
      obtain ⟨w, hw, -, -, -, -, -, hwal, -⟩ := updateBalance_ok_elim h
      rw [hwal]
      simp [hk]
  · intro r h
    obtain ⟨st2, w2⟩ := r
    obtain ⟨w, hw, -⟩ := updateBalance_ok_elim h
    simp [hw]

/-- Witness for C10: a deposit on the USDT wallet of user 1 leaves the
key of user 2 untouched. -/
theorem c10_mutation_confined_to_usdt_wallet_witness :
    ((2 : Nat), Currency.USDT) ≠ ((1 : Nat), Currency.USDT) ∧
    (updateBalanceState ledgerC9 1 5 ChangeType.DEPOSIT none).wallets
      (2, Currency.USDT) = ledgerC9.wallets (2, Currency.USDT) :=
  ⟨by simp,
   (c10_mutation_confined_to_usdt_wallet ledgerC9 1 5 ChangeType.DEPOSIT
      none).1 (2, Currency.USDT) (by simp)⟩

/-! ## Helper lemmas about the settlement pipeline -/

theorem processTransaction_completed_shortCircuit {st : WorkerState}
    {tx : TransactionMessage} {l : TransactionLog}
    (hl : st.logs tx.id = some l)
    (hc : l.status = TransactionLogStatus.COMPLETED) :
    processTransaction st tx =
      (st, { success := true, transaction_id := tx.id, error := none,
             wallet_updates := none }) := by
  simp [processTransaction, hl, hc]

theorem processTransaction_deadLetter_shortCircuit {st : WorkerState}
    {tx : TransactionMessage} {l : TransactionLog}
    (hl : st.logs tx.id = some l)
    (hc : l.status = TransactionLogStatus.DEAD_LETTER) :
    processTransaction st tx =
      (st, { success := false, transaction_id := tx.id,
             error := some ("Transaction in dead letter queue"),
             wallet_updates := none }) := by
  simp [processTransaction, hl, hc]

theorem processAttempt_success_completed {st : WorkerState}
    {tx : TransactionMessage} {rc maxr : Nat} {ex : Option TransactionLog}
    (h : (processAttempt st tx rc maxr ex).2.success = true) :
    ∃ l, ((processAttempt st tx rc maxr ex).1).logs tx.id = some l ∧
      l.status = TransactionLogStatus.COMPLETED := by
  simp only [processAttempt] at h ⊢
  cases hd : (dispatch st.ledger tx).2 with
  | ok updates => simp
  | error msg =>
    rw [hd] at h
    simp at h

theorem processTransaction_success_completed {st : WorkerState}
    {tx : TransactionMessage}
    (h : (processTransaction st tx).2.success = true) :
    ∃ l, ((processTransaction st tx).1).logs tx.id = some l ∧
      l.status = TransactionLogStatus.COMPLETED := by
  cases hl : st.logs tx.id with
  | some l =>
    by_cases hc : l.status = TransactionLogStatus.COMPLETED
    · rw [processTransaction_completed_shortCircuit hl hc]
      exact ⟨l, hl, hc⟩
    · by_cases hdl : l.status = TransactionLogStatus.DEAD_LETTER
      · rw [processTransaction_deadLetter_shortCircuit hl hdl] at h
        simp at h
      · have he : processTransaction st tx =
            processAttempt st tx l.retry_count l.max_retries (some l) := by
          simp [processTransaction, hl, hc, hdl]
        rw [he] at h ⊢
        exact processAttempt_success_completed h
  | none =>
    have he : processTransaction st tx = processAttempt st tx 0 3 none := by
      simp [processTransaction, hl]
    rw [he] at h ⊢
    exact processAttempt_success_completed h

theorem deliverN_stable {st : WorkerState} {tx : TransactionMessage}
    (h : (processTransaction st tx).2.success = true) :
    ∀ n, deliverN st tx (n + 1) = (processTransaction st tx).1 := by
  intro n
  induction n with
  | zero => rfl
  | succ n ih =>
    show (processTransaction (deliverN st tx (n + 1)) tx).1 = _
    rw [ih]
    obtain ⟨l, hl, hc⟩ := processTransaction_success_completed h
    rw [processTransaction_completed_shortCircuit hl hc]

theorem processMint_ledger_unchanged (led : LedgerState)
    (tx : TransactionMessage) : (processMint led tx).1 = led := by
  unfold processMint
  split
  · rfl
  · split
    · simp [walletClientUpdateBalance]
    · rfl

theorem processBurn_ledger_unchanged (led : LedgerState)
    (tx : TransactionMessage) : (processBurn led tx).1 = led := by
  unfold processBurn
  split
  · rfl
  · split
    · rfl
    · split
      · rfl
      · simp [walletClientUpdateBalance]

theorem processTransfer_ledger_unchanged (led : LedgerState)
    (tx : TransactionMessage) : (processTransfer led tx).1 = led := by
  unfold processTransfer
  split
  · rfl
  · rfl
  · split
    · rfl
    · split
      · simp only [walletClientUpdateBalance]
        split
        · rfl
        · rfl
      · rfl

theorem dispatch_ledger_unchanged (led : LedgerState)
    (tx : TransactionMessage) : (dispatch led tx).1 = led := by
  unfold dispatch
  split
  · exact processMint_ledger_unchanged led tx
  · exact processBurn_ledger_unchanged led tx
  · exact processTransfer_ledger_unchanged led tx
  · exact processTransfer_ledger_unchanged led tx

theorem processTransaction_ledger_unchanged (st : WorkerState)
    (tx : TransactionMessage) :
    ((processTransaction st tx).1).ledger = st.ledger := by
  have hattempt : ∀ rc maxr ex,
      ((processAttempt st tx rc maxr ex).1).ledger = st.ledger := by
    intro rc maxr ex
    simp only [processAttempt]
    cases hd : (dispatch st.ledger tx).2 with
    | ok updates => exact dispatch_ledger_unchanged st.ledger tx
    | error msg =>
      simp only [handleTransactionFailure]
      split
      · exact dispatch_ledger_unchanged st.ledger tx
      · exact dispatch_ledger_unchanged st.ledger tx
  unfold processTransaction
  cases hl : st.logs tx.id with
  | some l =>
    by_cases hc : l.status = TransactionLogStatus.COMPLETED
    · simp [hc]
    · by_cases hdl : l.status = TransactionLogStatus.DEAD_LETTER
      · simp [hc, hdl]
      · simp only [if_neg hc, if_neg hdl]
        exact hattempt _ _ _
  | none => exact hattempt _ _ _

/-! ## Claim C2 -/

/-- Claim C2 intends exactly-once settlement with idempotent replay; the
code performs the idempotent short-circuits but can never produce the one
ledger mutation. Delivering the mint m2 (the target wallet exists): the
credit request the worker posts is rejected by the wallet service (the
payload carries operation and no change_type), so the delivery fails and the
ledger is untouched — zero ledger mutations, not one (first three
conjuncts); a second delivery returns the identical failure outcome (fourth
conjunct). The last conjunct shows the idempotency anchor the claim
describes: with a COMPLETED log already stored for id m1, a re-delivery
returns the success outcome immediately with the whole state unchanged — no
ledger mutation is attempted. -/
theorem c2_settlement_mutates_nothing :
    (processTransaction stC2 txC2).2 =
      { success := false, transaction_id := "m2",
        error := some ("Failed to update wallet balance for MINT"),
        wallet_updates := none } ∧
    ((processTransaction stC2 txC2).1).ledger.wallets (1, Currency.USDT) =
      some ⟨0, 0, WalletStatus.ACTIVE⟩ ∧
    ((processTransaction stC2 txC2).1).ledger.history = [] ∧
    (processTransaction (processTransaction stC2 txC2).1 txC2).2 =
      (processTransaction stC2 txC2).2 ∧
    processTransaction stC2w txC2w =
      (stC2w, { success := true, transaction_id := "m1", error := none,
                wallet_updates := none }) := by
  have hlast : processTransaction stC2w txC2w =
      (stC2w, { success := true, transaction_id := "m1", error := none,
                wallet_updates := none }) :=
    @processTransaction_completed_shortCircuit stC2w txC2w logC2w
      (by simp [stC2w, txC2w]) rfl
  refine ⟨?_, ?_, ?_, ?_, hlast⟩ <;>
    norm_num +decide [processTransaction, processAttempt, dispatch,
      processMint, validateWalletExists, getBalanceClient,
      walletClientUpdateBalance, handleTransactionFailure, updateLogIfExists,
      setTxStatus, stC2, ledgerC2, txC2]

/-! ## Claim C3 -/

/-- Claim C3 intends one storage transaction spanning the settlement log,
the Transaction record and the ledger; the code has none — the worker's
database transaction covers only its own transaction_logs store, while the
ledger mutation and the Transaction status change are HTTP calls to other
services — and settlement steps 2-4 never commit at all: the wallet service
rejects every worker-issued balance update, and the Transaction status
endpoint is a stub. Delivering the fully funded transfer t3 (which per the
spec settles, changing balances and marking the Transaction COMPLETED): the
delivery fails, the ledger is unchanged, and no settlement-log row is
persisted (first three conjuncts). The last conjunct shows the pipeline can
never change any wallet balance, for any state and any work item — the
atomic joint commit of "balance actually changed" with "marked COMPLETED"
that the claim describes never executes. -/
theorem c3_settlement_steps_never_commit :
    (processTransaction stC3v txC3v).2 =
      { success := false, transaction_id := "t3",
        error := some ("Failed to update wallet balance for user"),
        wallet_updates := none } ∧
    ((processTransaction stC3v txC3v).1).ledger = stC3v.ledger ∧
    ((processTransaction stC3v txC3v).1).logs "t3" = none ∧
    (∀ st tx, ((processTransaction st tx).1).ledger = st.ledger) := by
  refine ⟨?_, processTransaction_ledger_unchanged stC3v txC3v, ?_,
    processTransaction_ledger_unchanged⟩ <;>
    norm_num +decide [processTransaction, processAttempt, dispatch,
      processTransfer, getBalanceClient, validateWalletExists,
      walletClientUpdateBalance, handleTransactionFailure, updateLogIfExists,
      setTxStatus, stC3v, ledgerC3v, txC3v]

/-! ## Claim C6 -/

/-- The retry handling diverges from claim C6. First two conjuncts: the
first delivery of transfer t6 fails retryably (attempt k = 1), yet no
settlement-log row is persisted at all — the in-transaction log insert was
rolled back, and the follow-up retry UPDATE matched no row — so neither the
schedule now + 30s nor a retry count of 1 is recorded, and a DEAD_LETTER
after a 4th failure is unreachable on this path. Last two conjuncts: when a
committed RETRYING row does exist (retry count 1, attempt k = 2), the
failure handler records exactly the claimed schedule
now + 30s times 2 to the power (k minus 1), and the incremented retry
count 2. -/
theorem c6_retry_schedule_divergence :
    (processTransaction stC6 txC6).2.success = false ∧
    ((processTransaction stC6 txC6).1).logs "t6" = none ∧
    (((processTransaction stC6b txC6).1).logs "t6").map
        TransactionLog.next_retry_at = some (some (5000 + 2 ^ 1 * 30000)) ∧
    (((processTransaction stC6b txC6).1).logs "t6").map
        TransactionLog.retry_count = some 2 := by
  norm_num +decide [processTransaction, processAttempt, dispatch,
    processTransfer, getBalanceClient, validateWalletExists,
    walletClientUpdateBalance, updateBalance, applyChange, applyFrozen,
    handleTransactionFailure, updateLogIfExists, setTxStatus, stC6, stC6b,
    logC6, ledgerC6, txC6]

/-! ## Claim C7 -/

/-- Counterexample for C7. The claim states that when a work item reaches
DEAD_LETTER the owner limit counters decrease back by exactly the reserved
amount (here 100.1, reserved for the transfer of 100 with fee 0.1 over a
pre-reservation value of 0). Delivering t7 with the retry budget exhausted
does move the log to DEAD_LETTER, but the limit counters are left at 100.1 —
no release happens anywhere in the pipeline — and 100.1 is not the claimed
post-release value 100.1 − (100 + 0.1) = 0. -/
theorem c7_dead_letter_no_release_counterexample :
    (((processTransaction stC7 txC7).1).logs "t7").map
        TransactionLog.status = some TransactionLogStatus.DEAD_LETTER ∧
    (((processTransaction stC7 txC7).1).limits 1).map
        TransactionLimit.current_daily = some (1001 / 10) ∧
    (1001 : ℚ) / 10 ≠ 1001 / 10 - (100 + 1 / 10) := by
  refine ⟨?_, ?_, by norm_num⟩ <;>
    norm_num +decide [processTransaction, processAttempt, dispatch,
      processTransfer, getBalanceClient, validateWalletExists,
      walletClientUpdateBalance, updateBalance, applyChange, applyFrozen,
      handleTransactionFailure, updateLogIfExists, setTxStatus, stC7, logC7,
      limitC7, txC7]

/-- Claim C7 (amended): the settlement pipeline never touches the limit
counters — on every path, including the DEAD_LETTER transition and terminal
failure, the limit store of the resulting state is exactly the limit store
of the input state, so the reservation made at intake is not released. -/
theorem c7_no_limit_release_amended (st : WorkerState)
    (tx : TransactionMessage) :
    ((processTransaction st tx).1).limits = st.limits := by
  have hattempt : ∀ rc maxr ex,
      ((processAttempt st tx rc maxr ex).1).limits = st.limits := by
    intro rc maxr ex
    simp only [processAttempt]
    cases hd : (dispatch st.ledger tx).2 with
    | ok updates => rfl
    | error msg =>
      simp only [handleTransactionFailure]
      split <;> rfl
  unfold processTransaction
  cases hl : st.logs tx.id with
  | some l =>
    by_cases hc : l.status = TransactionLogStatus.COMPLETED
    · simp [hc]
    · by_cases hdl : l.status = TransactionLogStatus.DEAD_LETTER
      · simp [hc, hdl]
      · simp only [if_neg hc, if_neg hdl]
        exact hattempt _ _ _
  | none => exact hattempt _ _ _

/-! ## Claim C1 -/

/-- Claim C1 describes the intended transfer settlement — debit the source
by amount plus fee and credit the destination by the amount, in one atomic
unit; the code never applies either leg. Settling the fully funded transfer
w1 (source balance 100, destination balance 5, both ACTIVE — per the spec
this settles, debiting 50.05 and crediting 50): the debit request the
worker posts carries operation and no change_type, the wallet service
rejects it, the wallet client returns false and the operation fails with
the ledger untouched (first two conjuncts). The last conjunct shows no
TRANSFER settlement can ever mutate the ledger: for every ledger state and
every work item, processTransfer leaves the ledger unchanged — the economic
effect the claim describes is never applied, so no transfer ever commits
its legs, atomically or otherwise. -/
theorem c1_transfer_legs_never_applied :
    (processTransfer ledgerC1w txC1w).2 =
      .error ("Failed to update wallet balance for user") ∧
    (processTransfer ledgerC1w txC1w).1 = ledgerC1w ∧
    (∀ led tx, (processTransfer led tx).1 = led) := by
  refine ⟨?_, processTransfer_ledger_unchanged ledgerC1w txC1w,
    processTransfer_ledger_unchanged⟩
  norm_num +decide [processTransfer, getBalanceClient, validateWalletExists,
    walletClientUpdateBalance, ledgerC1w, txC1w]

/-! ## Claim C4 -/

/-- The limit-counter invariant of claim C4 is violated by `bulkTransfer`.
User 1 (an admin with balance 20000) holds the default limits: daily limit
10000 with zero usage. A bulk transfer of two legs of 6000 reserves the
grand total 12012 (12000 plus the 0.1 percent fee): the request is accepted
— it is not rejected with LIMIT_EXCEEDED — and the daily usage counter is
incremented to 12012, strictly above the daily limit 10000, because
`bulkTransfer` calls `updateTransactionLimitsUsage` without ever calling
`checkTransactionLimits`; the final conjunct shows that the check the
sibling operations run would have rejected this very reservation. -/
theorem c4_bulk_transfer_skips_limit_check :
    (bulkTransfer storeC4 ledgerC4 ⟨1, Role.ADMIN⟩
        [⟨2, 6000⟩, ⟨2, 6000⟩]).2 =
      .ok [{ from_user_id := 1, to_user_id := 2, amount := 6000, fee := 6 },
           { from_user_id := 1, to_user_id := 2, amount := 6000, fee := 6 }] ∧
    ((bulkTransfer storeC4 ledgerC4 ⟨1, Role.ADMIN⟩
        [⟨2, 6000⟩, ⟨2, 6000⟩]).1 1).map TransactionLimit.current_daily =
      some 12012 ∧
    limitC4.daily_limit < (12012 : ℚ) ∧
    (checkTransactionLimits storeC4 1 12012 0 0).2 =
      .error IntakeError.dailyLimitExceeded := by
  refine ⟨?_, ?_, ?_, ?_⟩ <;>
    norm_num +decide [bulkTransfer, updateTransactionLimitsUsage,
      checkTransactionLimits, resetLimitsIfNeeded, defaultLimits,
      TRANSACTION_FEE_RATE, MIN_TRANSACTION_AMOUNT, List.dedup, storeC4,
      limitC4, ledgerC4]

end StableFlow
